import Mathlib

/-!
# Scan Tailor: `fix_orientation::OptionsWidget` and `NewOpenProjectPanel`

A shallow embedding of `src/filters/fix_orientation/OptionsWidget.cpp` and
`src/NewOpenProjectPanel.cpp`.

* A widget is a record of the members the code reads and writes.
* Every call on a collaborator (`Settings::applyRotation`,
  `rotationIndicator->setPixmap`) and every emitted signal is appended to a
  trace of `Event`s, in program order.
* `assert(!"Unreachable")` aborts the process unless `NDEBUG` is defined; an
  operation therefore returns an `Option`, `none` being the abort, and takes the
  build flavour `ndebug` as an argument.
-/

namespace fix_orientation

/-! ## Collaborator types -/

/-- Modelled from the spec: `ImageId`, the identifier of a scanned image; the
class is not among the sources and only its identity matters here. -/
structure ImageId where
  m_id : Nat
deriving DecidableEq, Repr

/-- Modelled from the spec: `PageId`, "identifier for a scanned page within a
project"; the class is not among the sources. A page belongs to an image,
returned by `imageId()`; several pages may share one image. -/
structure PageId where
  m_imageId : ImageId
  m_subPage : Nat
deriving DecidableEq, Repr

/-- The default-constructed `PageId()`, the value of `m_pageId` before the first
`preUpdateUI`. -/
def PageId.new : PageId := ⟨⟨0⟩, 0⟩

/-- The accessor `PageId::imageId()`. -/
def PageId.imageId (page_id : PageId) : ImageId := page_id.m_imageId

/-- Modelled from the spec: `OrthogonalRotation`, a "quantized rotation value
with `toDegrees()`, `nextClockwiseDirection()`, `prevClockwiseDirection()`,
equality"; the class is not among the sources. The value is its number of
degrees. The carrier is all of `Int` so that a value outside 0/90/180/270, the
one `setRotationPixmap` asserts against, can be written down. -/
structure OrthogonalRotation where
  m_degrees : Int
deriving DecidableEq, Repr

/-- The default-constructed `OrthogonalRotation()`: no rotation, 0 degrees. -/
def OrthogonalRotation.new : OrthogonalRotation := ⟨0⟩

/-- The accessor `OrthogonalRotation::toDegrees()`. -/
def OrthogonalRotation.toDegrees (r : OrthogonalRotation) : Int := r.m_degrees

/-- A rotation is quantized when it is one of 0, 90, 180, 270 degrees. -/
def OrthogonalRotation.Quantized (r : OrthogonalRotation) : Prop :=
  r.toDegrees = 0 ∨ r.toDegrees = 90 ∨ r.toDegrees = 180 ∨ r.toDegrees = 270

instance (r : OrthogonalRotation) : Decidable r.Quantized := by
  unfold OrthogonalRotation.Quantized
  exact inferInstance

/-- The two mutators of `OrthogonalRotation` the widget calls. Their bodies are
not among the sources, so the widget operations take them as an argument. -/
structure RotationSteps where
  nextClockwiseDirection : OrthogonalRotation → OrthogonalRotation
  prevClockwiseDirection : OrthogonalRotation → OrthogonalRotation

/-- Modelled from the spec: the mutators of `OrthogonalRotation`, not among the
sources, as quarter turns: `nextClockwiseDirection` adds 90 degrees modulo 360
and `prevClockwiseDirection` subtracts 90 degrees modulo 360. -/
def OrthogonalRotation.steps : RotationSteps where
  nextClockwiseDirection := fun r => ⟨(r.m_degrees + 90) % 360⟩
  prevClockwiseDirection := fun r => ⟨(r.m_degrees - 90) % 360⟩

/-- A `RotationSteps` keeps rotations quantized. -/
def RotationSteps.KeepsQuantized (steps : RotationSteps) : Prop :=
  ∀ r : OrthogonalRotation, r.Quantized →
    (steps.nextClockwiseDirection r).Quantized ∧ (steps.prevClockwiseDirection r).Quantized

/-! ## Observable effects -/

/-- What an operation of the widget does to the outside, in program order. A
`std::set<PageId>` is given by the list of its elements in iteration order. -/
inductive Event where
  /-- The call `rotationIndicator->setPixmap(QPixmap(path))`; `none` is the null path. -/
  | setPixmap (path : Option String)
  /-- The call `Settings::applyRotation(ImageId const&, OrthogonalRotation)`. -/
  | applyRotation (image_id : ImageId) (rotation : OrthogonalRotation)
  /-- The call `Settings::applyRotation(std::set<PageId> const&, OrthogonalRotation)`. -/
  | applyRotationToPages (pages : List PageId) (rotation : OrthogonalRotation)
  /-- The signal `rotated(rotation)`. -/
  | rotated (rotation : OrthogonalRotation)
  /-- The signal `invalidateThumbnail(page_id)`. -/
  | invalidateThumbnail (page_id : PageId)
  /-- The signal `invalidateAllThumbnails()`. -/
  | invalidateAllThumbnails
deriving DecidableEq, Repr

/-- Whether the event is a call of either overload of `Settings::applyRotation`. -/
def Event.isSettingsCall : Event → Bool
  | .applyRotation _ _ => true
  | .applyRotationToPages _ _ => true
  | _ => false

/-- Whether the event is an emitted signal. -/
def Event.isSignal : Event → Bool
  | .rotated _ => true
  | .invalidateThumbnail _ => true
  | .invalidateAllThumbnails => true
  | _ => false

/-- What `setupUi(this)` leaves in the widget. The form it is generated from is
not among the sources, so the pixmap it gives `rotationIndicator` is an
argument of the constructor. -/
structure Ui_OptionsWidget where
  rotationIndicatorPixmap : Option String
deriving DecidableEq, Repr

/-- The members of `fix_orientation::OptionsWidget` the operations touch.
`rotationIndicator` is the path of the pixmap the indicator label shows
(`none`: a null pixmap); `uiConnections` counts how many times the four button
signals are connected to their slots. -/
structure OptionsWidget where
  m_pageId : PageId
  m_rotation : OrthogonalRotation
  rotationIndicator : Option String
  uiConnections : Nat
deriving DecidableEq, Repr

/-- The result of an operation: the new widget and the events it produced, or
`none` when the assertion in `setRotationPixmap` aborted the process. -/
abbrev Outcome := Option (OptionsWidget × List Event)

namespace OptionsWidget

/-- One call of `setupUiConnections()`: each `connect` adds a connection. -/
def setupUiConnections (w : OptionsWidget) : OptionsWidget :=
  { w with uiConnections := w.uiConnections + 1 }

/-- One call of `removeUiConnections()`: each `disconnect` drops every matching connection. -/
def removeUiConnections (w : OptionsWidget) : OptionsWidget :=
  { w with uiConnections := 0 }

/-- The constructor: `m_pageId` and `m_rotation` are default-constructed, then
`setupUi(this)` and `setupUiConnections()` run. It does not call
`setRotationPixmap`. -/
def new (ui : Ui_OptionsWidget) : OptionsWidget :=
  setupUiConnections
    { m_pageId := PageId.new
      m_rotation := OrthogonalRotation.new
      rotationIndicator := ui.rotationIndicatorPixmap
      uiConnections := 0 }

/-- The `switch` of `setRotationPixmap`: the path chosen for a number of
degrees; `none` is the `default:` branch, which leaves `path` at `nullptr`. -/
def pixmapPath (degrees : Int) : Option String :=
  if degrees = 0 then some ":/icons/big-up-arrow.png"
  else if degrees = 90 then some ":/icons/big-right-arrow.png"
  else if degrees = 180 then some ":/icons/big-down-arrow.png"
  else if degrees = 270 then some ":/icons/big-left-arrow.png"
  else none

/-- The method `setRotationPixmap()`. In the `default:` branch the assertion
aborts unless `ndebug`, in which case the null path is displayed. -/
def setRotationPixmap (ndebug : Bool) (w : OptionsWidget) : Outcome :=
  match pixmapPath w.m_rotation.toDegrees with
  | some path => some ({ w with rotationIndicator := some path }, [Event.setPixmap (some path)])
  | none =>
    if ndebug then some ({ w with rotationIndicator := none }, [Event.setPixmap none])
    else none

/-- The method `setRotation(rotation)`. -/
def setRotation (ndebug : Bool) (w : OptionsWidget) (rotation : OrthogonalRotation) : Outcome :=
  if rotation = w.m_rotation then some (w, [])
  else
    match setRotationPixmap ndebug { w with m_rotation := rotation } with
    | none => none
    | some (w1, shown) =>
      some (w1, shown ++ [Event.applyRotation w1.m_pageId.imageId rotation,
                          Event.rotated rotation,
                          Event.invalidateThumbnail w1.m_pageId])

/-- The method `preUpdateUI(page_id, rotation)`. -/
def preUpdateUI (ndebug : Bool) (w : OptionsWidget) (page_id : PageId)
    (rotation : OrthogonalRotation) : Outcome :=
  match setRotationPixmap ndebug
      { removeUiConnections w with m_pageId := page_id, m_rotation := rotation } with
  | none => none
  | some (w1, shown) => some (setupUiConnections w1, shown)

/-- The method `postUpdateUI(rotation)`. -/
def postUpdateUI (ndebug : Bool) (w : OptionsWidget) (rotation : OrthogonalRotation) : Outcome :=
  match setRotation ndebug (removeUiConnections w) rotation with
  | none => none
  | some (w1, events) => some (setupUiConnections w1, events)

/-- The slot `rotateLeft()`. -/
def rotateLeft (ndebug : Bool) (steps : RotationSteps) (w : OptionsWidget) : Outcome :=
  setRotation ndebug w (steps.prevClockwiseDirection w.m_rotation)

/-- The slot `rotateRight()`. -/
def rotateRight (ndebug : Bool) (steps : RotationSteps) (w : OptionsWidget) : Outcome :=
  setRotation ndebug w (steps.nextClockwiseDirection w.m_rotation)

/-- The slot `resetRotation()`. -/
def resetRotation (ndebug : Bool) (w : OptionsWidget) : Outcome :=
  setRotation ndebug w OrthogonalRotation.new

/-- The slot `appliedTo(pages)`. -/
def appliedTo (w : OptionsWidget) (pages : List PageId) : OptionsWidget × List Event :=
  if pages.isEmpty then (w, [])
  else
    (w, Event.applyRotationToPages pages w.m_rotation ::
          (if pages.length > 1 then [Event.invalidateAllThumbnails]
           else pages.map Event.invalidateThumbnail))

/-- The slot `appliedToAllPages(pages)`. -/
def appliedToAllPages (w : OptionsWidget) (pages : List PageId) : OptionsWidget × List Event :=
  (w, [Event.applyRotationToPages pages w.m_rotation, Event.invalidateAllThumbnails])

/-- The indicator shows the arrow `setRotationPixmap` assigns to `m_rotation`. -/
def IndicatorMatches (w : OptionsWidget) : Prop :=
  w.rotationIndicator = pixmapPath w.m_rotation.toDegrees

instance (w : OptionsWidget) : Decidable w.IndicatorMatches := by
  unfold IndicatorMatches
  exact inferInstance

end OptionsWidget

/-- A call of one of the operations of the widget. -/
inductive Op where
  | preUpdateUI (page_id : PageId) (rotation : OrthogonalRotation)
  | postUpdateUI (rotation : OrthogonalRotation)
  | rotateLeft
  | rotateRight
  | resetRotation
  | appliedTo (pages : List PageId)
  | appliedToAllPages (pages : List PageId)
deriving DecidableEq, Repr

/-- Running one operation on a widget. -/
def Op.run (ndebug : Bool) (steps : RotationSteps) (w : OptionsWidget) : Op → Outcome
  | .preUpdateUI page_id rotation => w.preUpdateUI ndebug page_id rotation
  | .postUpdateUI rotation => w.postUpdateUI ndebug rotation
  | .rotateLeft => w.rotateLeft ndebug steps
  | .rotateRight => w.rotateRight ndebug steps
  | .resetRotation => w.resetRotation ndebug
  | .appliedTo pages => some (w.appliedTo pages)
  | .appliedToAllPages pages => some (w.appliedToAllPages pages)

/-- Running a sequence of operations, left to right, collecting the events. -/
def runOps (ndebug : Bool) (steps : RotationSteps) : List Op → OptionsWidget → Outcome
  | [], w => some (w, [])
  | op :: rest, w =>
    match op.run ndebug steps w with
    | none => none
    | some (w1, events) =>
      match runOps ndebug steps rest w1 with
      | none => none
      | some (w2, more) => some (w2, events ++ more)

/-- The rotations an operation receives from its caller are quantized. -/
def Op.QuantizedArgs : Op → Prop
  | .preUpdateUI _ rotation => rotation.Quantized
  | .postUpdateUI rotation => rotation.Quantized
  | _ => True

/-- The operations that change the rotation through `setRotation`. -/
def Op.viaSetRotation : Op → Bool
  | .postUpdateUI _ => true
  | .rotateLeft => true
  | .rotateRight => true
  | .resetRotation => true
  | _ => false

end fix_orientation

/-! ## `NewOpenProjectPanel` -/

/-- The Qt function `QFileInfo::fileName()` on a path with `/` separators: the
part of the path after its last `/`. -/
def QFileInfo.fileName (file_path : String) : String :=
  String.mk (file_path.data.reverse.takeWhile (fun c => c != '/')).reverse

/-- The Qt function `QFileInfo::baseName()`: the file name up to, but not
including, its first `.` character. -/
def QFileInfo.baseName (file_path : String) : String :=
  String.mk ((QFileInfo.fileName file_path).data.takeWhile (fun c => c != '.'))

/-- The rich text `Utils::richTextForLink` builds: a hyperlink showing `label`
and leading to `target`; `target` is `none` when the call gives no target. -/
structure RichTextLink where
  label : String
  target : Option String
deriving DecidableEq, Repr

/-- Modelled from the spec: `Utils::richTextForLink(label, target)`, not among
the sources; it renders `label` as a link to `target`. -/
def Utils.richTextForLink (label : String) (target : Option String) : RichTextLink :=
  ⟨label, target⟩

/-- The properties of a `QLabel` that `addRecentProject` sets. -/
structure QLabel where
  wordWrap : Bool
  richTextFormat : Bool
  text : RichTextLink
  toolTip : String
  fontPointSize : Int
deriving DecidableEq, Repr

/-- Modelled from the spec: the collaborator `RecentProjects`, not among the
sources: the stored list of project paths with `read()`, `validate()` ("returns
whether all paths still exist"), `write()`, `isEmpty()` and
`enumerate(callback)` "over stored paths". -/
structure RecentProjects where
  m_projectFiles : List String
deriving DecidableEq, Repr

/-- Modelled from the spec: `RecentProjects::read()` loads the persisted list. -/
def RecentProjects.read (persisted : List String) : RecentProjects := ⟨persisted⟩

/-- Modelled from the spec: `RecentProjects::validate()` drops the paths that no
longer exist and returns whether all paths still existed. -/
def RecentProjects.validate (fileExists : String → Bool) (rp : RecentProjects) :
    Bool × RecentProjects :=
  (rp.m_projectFiles.all fileExists, ⟨rp.m_projectFiles.filter fileExists⟩)

/-- Modelled from the spec: `RecentProjects::isEmpty()`. -/
def RecentProjects.isEmpty (rp : RecentProjects) : Bool := rp.m_projectFiles.isEmpty

/-- Modelled from the spec: `RecentProjects::enumerate(callback)` calls the
callback on every stored path, in stored order. -/
def RecentProjects.enumerate {σ : Type} (rp : RecentProjects) (callback : σ → String → σ)
    (init : σ) : σ :=
  rp.m_projectFiles.foldl callback init

/-- What `setupUi(this)` leaves in the panel. The form it is generated from is
not among the sources, so the label texts, the visibility of the group and the
point size of its font are arguments of the constructor. -/
structure Ui_NewOpenProjectPanel where
  newProjectLabelText : String
  openProjectLabelText : String
  recentProjectsGroupVisible : Bool
  recentProjectsGroupFontPointSize : Int
deriving DecidableEq, Repr

/-- The widgets of `NewOpenProjectPanel` the code touches. `recentProjectsLabels`
are the labels in the layout of `recentProjectsGroup`, in the order added. -/
structure NewOpenProjectPanel where
  newProjectLabel : RichTextLink
  openProjectLabel : RichTextLink
  recentProjectsGroupVisible : Bool
  recentProjectsGroupFontPointSize : Int
  recentProjectsLabels : List QLabel
deriving DecidableEq, Repr

namespace NewOpenProjectPanel

/-- The label `addRecentProject(file_path)` creates. -/
def recentProjectLabel (panel : NewOpenProjectPanel) (file_path : String) : QLabel :=
  let base_name := QFileInfo.baseName file_path
  let base_name := if base_name.isEmpty then String.singleton '_' else base_name
  { wordWrap := true
    richTextFormat := true
    text := Utils.richTextForLink base_name (some file_path)
    toolTip := file_path
    fontPointSize := panel.recentProjectsGroupFontPointSize }

/-- The method `addRecentProject(file_path)`: the new label goes to the end of
the layout of `recentProjectsGroup`. -/
def addRecentProject (panel : NewOpenProjectPanel) (file_path : String) : NewOpenProjectPanel :=
  { panel with
    recentProjectsLabels := panel.recentProjectsLabels ++ [recentProjectLabel panel file_path] }

/-- The constructor, run on the persisted list of recent projects and on the
file system. Returns the panel and, when `rp.write()` was called, the list
written. -/
def new (ui : Ui_NewOpenProjectPanel) (persisted : List String) (fileExists : String → Bool) :
    NewOpenProjectPanel × Option (List String) :=
  let panel : NewOpenProjectPanel :=
    { newProjectLabel := Utils.richTextForLink ui.newProjectLabelText none
      openProjectLabel := Utils.richTextForLink ui.openProjectLabelText none
      recentProjectsGroupVisible := ui.recentProjectsGroupVisible
      recentProjectsGroupFontPointSize := ui.recentProjectsGroupFontPointSize
      recentProjectsLabels := [] }
  let validated := (RecentProjects.read persisted).validate fileExists
  let rp := validated.2
  let written := if !validated.1 then some rp.m_projectFiles else none
  if rp.isEmpty then
    ({ panel with recentProjectsGroupVisible := false }, written)
  else
    (rp.enumerate addRecentProject panel, written)

end NewOpenProjectPanel

/-- The list `RecentProjects` holds after `read()` and `validate()`. -/
def recentProjectPaths (persisted : List String) (fileExists : String → Bool) : List String :=
  ((RecentProjects.read persisted).validate fileExists).2.m_projectFiles

namespace fix_orientation

/-! ## Lemmas on `setRotationPixmap` and `setRotation` -/

theorem pixmapPath_of_quantized (r : OrthogonalRotation) (h : r.Quantized) :
    ∃ path, OptionsWidget.pixmapPath r.toDegrees = some path := by
  rcases h with h | h | h | h <;> rw [h] <;> simp [OptionsWidget.pixmapPath]

theorem quantized_of_pixmapPath (r : OrthogonalRotation) (path : String)
    (h : OptionsWidget.pixmapPath r.toDegrees = some path) : r.Quantized := by
  unfold OptionsWidget.pixmapPath at h
  unfold OrthogonalRotation.Quantized
  by_cases h0 : r.toDegrees = 0
  · exact Or.inl h0
  · by_cases h1 : r.toDegrees = 90
    · exact Or.inr (Or.inl h1)
    · by_cases h2 : r.toDegrees = 180
      · exact Or.inr (Or.inr (Or.inl h2))
      · by_cases h3 : r.toDegrees = 270
        · exact Or.inr (Or.inr (Or.inr h3))
        · simp [h0, h1, h2, h3] at h

/-- What a returning `setRotationPixmap` has done: the indicator shows the path
of the switch, one `setPixmap` call was made, and in a debug build the path is
not null. -/
theorem setRotationPixmap_some (ndebug : Bool) (w w1 : OptionsWidget) (events : List Event)
    (h : w.setRotationPixmap ndebug = some (w1, events)) :
    w1 = { w with rotationIndicator := OptionsWidget.pixmapPath w.m_rotation.toDegrees } ∧
    events = [Event.setPixmap (OptionsWidget.pixmapPath w.m_rotation.toDegrees)] ∧
    (ndebug = false → w.m_rotation.Quantized) := by
  unfold OptionsWidget.setRotationPixmap at h
  cases hp : OptionsWidget.pixmapPath w.m_rotation.toDegrees with
  | some path =>
    rw [hp] at h
    simp only [Option.some.injEq, Prod.mk.injEq] at h
    exact ⟨h.1.symm, h.2.symm, fun _ => quantized_of_pixmapPath _ _ hp⟩
  | none =>
    rw [hp] at h
    cases ndebug with
    | true =>
      simp only [if_true, Option.some.injEq, Prod.mk.injEq] at h
      exact ⟨h.1.symm, h.2.symm, fun hf => by cases hf⟩
    | false => simp at h

/-- On a quantized rotation `setRotationPixmap` returns in either build. -/
theorem setRotationPixmap_of_quantized (ndebug : Bool) (w : OptionsWidget)
    (h : w.m_rotation.Quantized) :
    ∃ path, OptionsWidget.pixmapPath w.m_rotation.toDegrees = some path ∧
      w.setRotationPixmap ndebug
        = some ({ w with rotationIndicator := some path }, [Event.setPixmap (some path)]) := by
  obtain ⟨path, hp⟩ := pixmapPath_of_quantized _ h
  exact ⟨path, hp, by simp [OptionsWidget.setRotationPixmap, hp]⟩

/-- A release build returns on every rotation. -/
theorem setRotationPixmap_ndebug (w : OptionsWidget) :
    w.setRotationPixmap true
      = some ({ w with rotationIndicator := OptionsWidget.pixmapPath w.m_rotation.toDegrees },
              [Event.setPixmap (OptionsWidget.pixmapPath w.m_rotation.toDegrees)]) := by
  unfold OptionsWidget.setRotationPixmap
  cases hp : OptionsWidget.pixmapPath w.m_rotation.toDegrees <;> simp

/-- The early return of `setRotation`. -/
theorem setRotation_same (ndebug : Bool) (w : OptionsWidget) :
    w.setRotation ndebug w.m_rotation = some (w, []) := by
  simp [OptionsWidget.setRotation]

/-- What a returning `setRotation` has done on a rotation that differs. -/
theorem setRotation_some_of_ne (ndebug : Bool) (w w1 : OptionsWidget)
    (rotation : OrthogonalRotation) (events : List Event) (hne : rotation ≠ w.m_rotation)
    (h : w.setRotation ndebug rotation = some (w1, events)) :
    w1 = { w with m_rotation := rotation,
                  rotationIndicator := OptionsWidget.pixmapPath rotation.toDegrees } ∧
    events = [Event.setPixmap (OptionsWidget.pixmapPath rotation.toDegrees),
              Event.applyRotation w.m_pageId.imageId rotation,
              Event.rotated rotation,
              Event.invalidateThumbnail w.m_pageId] ∧
    (ndebug = false → rotation.Quantized) := by
  unfold OptionsWidget.setRotation at h
  rw [if_neg hne] at h
  cases hs : OptionsWidget.setRotationPixmap ndebug { w with m_rotation := rotation } with
  | none => rw [hs] at h; simp at h
  | some res =>
    obtain ⟨w2, shown⟩ := res
    rw [hs] at h
    obtain ⟨hw, hev, hq⟩ := setRotationPixmap_some ndebug _ _ _ hs
    simp only [Option.some.injEq, Prod.mk.injEq] at h
    obtain ⟨h1, h2⟩ := h
    subst h1
    subst hw
    subst hev
    exact ⟨rfl, by rw [← h2]; rfl, hq⟩

/-- On a rotation that differs and is quantized (or in a release build)
`setRotation` returns. -/
theorem setRotation_of_ne (ndebug : Bool) (w : OptionsWidget) (rotation : OrthogonalRotation)
    (hne : rotation ≠ w.m_rotation) (hq : rotation.Quantized ∨ ndebug = true) :
    w.setRotation ndebug rotation
      = some ({ w with m_rotation := rotation,
                       rotationIndicator := OptionsWidget.pixmapPath rotation.toDegrees },
              [Event.setPixmap (OptionsWidget.pixmapPath rotation.toDegrees),
               Event.applyRotation w.m_pageId.imageId rotation,
               Event.rotated rotation,
               Event.invalidateThumbnail w.m_pageId]) := by
  have hs : OptionsWidget.setRotationPixmap ndebug { w with m_rotation := rotation }
      = some ({ w with m_rotation := rotation,
                       rotationIndicator := OptionsWidget.pixmapPath rotation.toDegrees },
              [Event.setPixmap (OptionsWidget.pixmapPath rotation.toDegrees)]) := by
    rcases hq with hq | hq
    · obtain ⟨path, hp, hrun⟩ :=
        setRotationPixmap_of_quantized ndebug { w with m_rotation := rotation } hq
      rw [hrun]
      simp only at hp
      rw [hp]
    · subst hq
      exact setRotationPixmap_ndebug _
  unfold OptionsWidget.setRotation
  rw [if_neg hne, hs]
  rfl

end fix_orientation

namespace fix_orientation

/-! ## One operation -/

/-- A returning `setRotation` keeps the page, the connections and the
agreement of indicator and rotation. -/
theorem setRotation_frame (ndebug : Bool) (w w1 : OptionsWidget) (rotation : OrthogonalRotation)
    (events : List Event) (h : w.setRotation ndebug rotation = some (w1, events)) :
    w1.m_rotation = rotation ∧ w1.m_pageId = w.m_pageId ∧
    w1.uiConnections = w.uiConnections ∧ (w.IndicatorMatches → w1.IndicatorMatches) := by
  by_cases hne : rotation = w.m_rotation
  · subst hne
    rw [setRotation_same] at h
    simp only [Option.some.injEq, Prod.mk.injEq] at h
    obtain ⟨h1, _⟩ := h
    subst h1
    exact ⟨rfl, rfl, rfl, id⟩
  · obtain ⟨hw, _, _⟩ := setRotation_some_of_ne ndebug w w1 rotation events hne h
    subst hw
    exact ⟨rfl, rfl, rfl, fun _ => rfl⟩

/-- A returning `preUpdateUI` has stored its arguments and made the indicator agree. -/
theorem preUpdateUI_some (ndebug : Bool) (w w1 : OptionsWidget) (page_id : PageId)
    (rotation : OrthogonalRotation) (events : List Event)
    (h : w.preUpdateUI ndebug page_id rotation = some (w1, events)) :
    w1 = { m_pageId := page_id, m_rotation := rotation,
           rotationIndicator := OptionsWidget.pixmapPath rotation.toDegrees,
           uiConnections := 1 } ∧
    events = [Event.setPixmap (OptionsWidget.pixmapPath rotation.toDegrees)] ∧
    (ndebug = false → rotation.Quantized) := by
  unfold OptionsWidget.preUpdateUI at h
  cases hs : OptionsWidget.setRotationPixmap ndebug
      { w.removeUiConnections with m_pageId := page_id, m_rotation := rotation } with
  | none => rw [hs] at h; simp at h
  | some res =>
    obtain ⟨w2, shown⟩ := res
    rw [hs] at h
    obtain ⟨hw, hev, hq⟩ := setRotationPixmap_some ndebug _ _ _ hs
    simp only [Option.some.injEq, Prod.mk.injEq] at h
    obtain ⟨h1, h2⟩ := h
    subst h1
    subst hw
    subst h2
    exact ⟨rfl, hev, hq⟩

/-- A returning `postUpdateUI` is a returning `setRotation` between the two
connection calls. -/
theorem postUpdateUI_some (ndebug : Bool) (w w1 : OptionsWidget)
    (rotation : OrthogonalRotation) (events : List Event)
    (h : w.postUpdateUI ndebug rotation = some (w1, events)) :
    ∃ w2, w.removeUiConnections.setRotation ndebug rotation = some (w2, events) ∧
      w1 = w2.setupUiConnections := by
  unfold OptionsWidget.postUpdateUI at h
  cases hs : OptionsWidget.setRotation ndebug w.removeUiConnections rotation with
  | none => rw [hs] at h; simp at h
  | some res =>
    obtain ⟨w2, more⟩ := res
    rw [hs] at h
    simp only [Option.some.injEq, Prod.mk.injEq] at h
    obtain ⟨h1, h2⟩ := h
    subst h1
    subst h2
    exact ⟨w2, rfl, rfl⟩

/-- A returning run of `op :: rest` is a returning `op` followed by a returning
run of `rest`. -/
theorem runOps_cons_some (ndebug : Bool) (steps : RotationSteps) (op : Op) (rest : List Op)
    (w w1 : OptionsWidget) (events : List Event)
    (h : runOps ndebug steps (op :: rest) w = some (w1, events)) :
    ∃ w2 first more, op.run ndebug steps w = some (w2, first) ∧
      runOps ndebug steps rest w2 = some (w1, more) ∧ events = first ++ more := by
  simp only [runOps] at h
  cases hop : op.run ndebug steps w with
  | none => simp [hop] at h
  | some res =>
    obtain ⟨w2, first⟩ := res
    simp only [hop] at h
    cases hrest : runOps ndebug steps rest w2 with
    | none => simp [hrest] at h
    | some res2 =>
      obtain ⟨w3, more⟩ := res2
      simp only [hrest, Option.some.injEq, Prod.mk.injEq] at h
      obtain ⟨h1, h2⟩ := h
      subst h1
      exact ⟨w2, first, more, rfl, hrest, h2.symm⟩

/-- On a quantized rotation `setRotation` returns, stores the rotation and never
shows the null path. -/
theorem setRotation_of_quantized (ndebug : Bool) (w : OptionsWidget)
    (rotation : OrthogonalRotation) (hq : rotation.Quantized) :
    ∃ w1 events, w.setRotation ndebug rotation = some (w1, events) ∧
      w1.m_rotation = rotation ∧ Event.setPixmap none ∉ events := by
  by_cases hne : rotation = w.m_rotation
  · subst hne
    exact ⟨w, [], setRotation_same ndebug w, rfl, by simp⟩
  · obtain ⟨path, hp⟩ := pixmapPath_of_quantized rotation hq
    refine ⟨_, _, setRotation_of_ne ndebug w rotation hne (Or.inl hq), rfl, ?_⟩
    simp [hp]

/-- From a quantized rotation, an operation with quantized arguments returns,
ends in a quantized rotation and never shows the null path. -/
theorem run_of_quantized (ndebug : Bool) (steps : RotationSteps) (w : OptionsWidget) (op : Op)
    (hsteps : steps.KeepsQuantized) (hw : w.m_rotation.Quantized) (hop : op.QuantizedArgs) :
    ∃ w1 events, op.run ndebug steps w = some (w1, events) ∧
      w1.m_rotation.Quantized ∧ Event.setPixmap none ∉ events := by
  cases op with
  | preUpdateUI page_id rotation =>
    obtain ⟨path, hp, hrun⟩ := setRotationPixmap_of_quantized ndebug
      { w.removeUiConnections with m_pageId := page_id, m_rotation := rotation } hop
    refine ⟨{ m_pageId := page_id, m_rotation := rotation, rotationIndicator := some path,
              uiConnections := 1 }, [Event.setPixmap (some path)], ?_, hop, by simp⟩
    simp only [Op.run, OptionsWidget.preUpdateUI, hrun]
    rfl
  | postUpdateUI rotation =>
    obtain ⟨w1, events, hrun, hrot, hev⟩ :=
      setRotation_of_quantized ndebug w.removeUiConnections rotation hop
    refine ⟨w1.setupUiConnections, events, ?_, ?_, hev⟩
    · simp only [Op.run, OptionsWidget.postUpdateUI, hrun]
    · have : w1.setupUiConnections.m_rotation = rotation := hrot
      rw [OrthogonalRotation.Quantized, this]
      exact hop
  | rotateLeft =>
    obtain ⟨w1, events, hrun, hrot, hev⟩ :=
      setRotation_of_quantized ndebug w _ (hsteps w.m_rotation hw).2
    exact ⟨w1, events, hrun, by rw [hrot]; exact (hsteps w.m_rotation hw).2, hev⟩
  | rotateRight =>
    obtain ⟨w1, events, hrun, hrot, hev⟩ :=
      setRotation_of_quantized ndebug w _ (hsteps w.m_rotation hw).1
    exact ⟨w1, events, hrun, by rw [hrot]; exact (hsteps w.m_rotation hw).1, hev⟩
  | resetRotation =>
    obtain ⟨w1, events, hrun, hrot, hev⟩ :=
      setRotation_of_quantized ndebug w OrthogonalRotation.new (Or.inl rfl)
    exact ⟨w1, events, hrun, by rw [hrot]; exact Or.inl rfl, hev⟩
  | appliedTo pages =>
    refine ⟨(w.appliedTo pages).1, (w.appliedTo pages).2, rfl, ?_, ?_⟩
    · unfold OptionsWidget.appliedTo; split <;> exact hw
    · unfold OptionsWidget.appliedTo
      split
      · simp
      · simp only [List.mem_cons, not_or]
        refine ⟨by simp, ?_⟩
        split <;> simp
  | appliedToAllPages pages =>
    exact ⟨w, _, rfl, hw, by simp⟩

/-- From a quantized rotation, a run of operations with quantized arguments
returns, ends in a quantized rotation and never shows the null path. -/
theorem runOps_of_quantized (ndebug : Bool) (steps : RotationSteps)
    (hsteps : steps.KeepsQuantized) (ops : List Op) :
    ∀ w : OptionsWidget, w.m_rotation.Quantized → (∀ op ∈ ops, op.QuantizedArgs) →
      ∃ w1 events, runOps ndebug steps ops w = some (w1, events) ∧
        w1.m_rotation.Quantized ∧ Event.setPixmap none ∉ events := by
  induction ops with
  | nil => intro w hw _; exact ⟨w, [], rfl, hw, by simp⟩
  | cons op rest ih =>
    intro w hw hargs
    obtain ⟨w1, first, hrun, hq1, hev1⟩ :=
      run_of_quantized ndebug steps w op hsteps hw (hargs op (List.mem_cons_self _ _))
    obtain ⟨w2, more, hrest, hq2, hev2⟩ :=
      ih w1 hq1 (fun o ho => hargs o (List.mem_cons_of_mem _ ho))
    refine ⟨w2, first ++ more, ?_, hq2, ?_⟩
    · simp only [runOps, hrun, hrest]
    · simp only [List.mem_append, not_or]
      exact ⟨hev1, hev2⟩

/-- The modular steps keep rotations quantized. -/
theorem steps_keepsQuantized : OrthogonalRotation.steps.KeepsQuantized := by
  intro r hr
  obtain ⟨d⟩ := r
  simp only [OrthogonalRotation.Quantized, OrthogonalRotation.toDegrees] at hr
  rcases hr with hr | hr | hr | hr <;> subst hr <;>
    simp [OrthogonalRotation.steps, OrthogonalRotation.Quantized, OrthogonalRotation.toDegrees]

/-- Every `setPixmap` call of one operation gets the path of the switch for
some number of degrees. -/
theorem run_setPixmap_path (ndebug : Bool) (steps : RotationSteps) (w w1 : OptionsWidget)
    (op : Op) (events : List Event) (h : op.run ndebug steps w = some (w1, events))
    (path : Option String) (hmem : Event.setPixmap path ∈ events) :
    ∃ d, path = OptionsWidget.pixmapPath d := by
  have key : ∀ (v v1 : OptionsWidget) (rotation : OrthogonalRotation),
      v.setRotation ndebug rotation = some (v1, events) →
      ∃ d, path = OptionsWidget.pixmapPath d := by
    intro v v1 rotation hs
    by_cases hne : rotation = v.m_rotation
    · subst hne
      rw [setRotation_same] at hs
      simp only [Option.some.injEq, Prod.mk.injEq] at hs
      rw [← hs.2] at hmem
      simp at hmem
    · obtain ⟨_, hev, _⟩ := setRotation_some_of_ne ndebug v v1 rotation events hne hs
      subst hev
      simp at hmem
      exact ⟨_, hmem⟩
  cases op with
  | preUpdateUI page_id rotation =>
    obtain ⟨_, hev, _⟩ := preUpdateUI_some ndebug w w1 page_id rotation events h
    subst hev
    simp at hmem
    exact ⟨_, hmem⟩
  | postUpdateUI rotation =>
    obtain ⟨w2, hs, _⟩ := postUpdateUI_some ndebug w w1 rotation events h
    exact key _ _ _ hs
  | rotateLeft => exact key _ _ _ h
  | rotateRight => exact key _ _ _ h
  | resetRotation => exact key _ _ _ h
  | appliedTo pages =>
    simp only [Op.run, OptionsWidget.appliedTo, Option.some.injEq] at h
    split at h
    · simp only [Prod.mk.injEq] at h
      rw [← h.2] at hmem
      simp at hmem
    · simp only [Prod.mk.injEq] at h
      rw [← h.2] at hmem
      simp only [List.mem_cons] at hmem
      rcases hmem with hmem | hmem
      · cases hmem
      · split at hmem <;> simp at hmem
  | appliedToAllPages pages =>
    simp only [Op.run, OptionsWidget.appliedToAllPages, Option.some.injEq, Prod.mk.injEq] at h
    rw [← h.2] at hmem
    simp at hmem

/-- A path of the switch that is not null is one of the four arrows. -/
theorem pixmapPath_mem_arrows (d : Int) (h : OptionsWidget.pixmapPath d ≠ none) :
    OptionsWidget.pixmapPath d ∈
      [some ":/icons/big-up-arrow.png", some ":/icons/big-right-arrow.png",
       some ":/icons/big-down-arrow.png", some ":/icons/big-left-arrow.png"] := by
  unfold OptionsWidget.pixmapPath at h ⊢
  split_ifs at h ⊢ <;> simp at h ⊢

/-- In a run that never shows the null path every path shown is one of the four arrows. -/
theorem runOps_setPixmap_path (ndebug : Bool) (steps : RotationSteps) (ops : List Op) :
    ∀ (w w1 : OptionsWidget) (events : List Event),
      runOps ndebug steps ops w = some (w1, events) →
      ∀ path, Event.setPixmap path ∈ events → Event.setPixmap none ∉ events →
        path ∈ [some ":/icons/big-up-arrow.png", some ":/icons/big-right-arrow.png",
                some ":/icons/big-down-arrow.png", some ":/icons/big-left-arrow.png"] := by
  induction ops with
  | nil =>
    intro w w1 events h path hmem _
    simp only [runOps, Option.some.injEq, Prod.mk.injEq] at h
    rw [← h.2] at hmem
    simp at hmem
  | cons op rest ih =>
    intro w w1 events h path hmem hnull
    obtain ⟨w2, first, more, hop, hrest, hev⟩ := runOps_cons_some ndebug steps op rest w w1 events h
    subst hev
    simp only [List.mem_append, not_or] at hmem hnull
    rcases hmem with hmem | hmem
    · obtain ⟨d, hd⟩ := run_setPixmap_path ndebug steps w w2 op first hop path hmem
      subst hd
      refine pixmapPath_mem_arrows d ?_
      intro hnone
      rw [hnone] at hmem
      exact hnull.1 hmem
    · exact ih w2 w1 more hrest path hmem hnull.2

/-- A constructed widget shows what the form gave the indicator, at the default
rotation, and `resetRotation` on it takes the early return of `setRotation`. -/
theorem new_shows_form_pixmap (ndebug : Bool) (ui : Ui_OptionsWidget) :
    (OptionsWidget.new ui).rotationIndicator = ui.rotationIndicatorPixmap ∧
    (OptionsWidget.new ui).m_rotation = OrthogonalRotation.new ∧
    (OptionsWidget.new ui).resetRotation ndebug = some (OptionsWidget.new ui, []) :=
  ⟨rfl, rfl, setRotation_same ndebug (OptionsWidget.new ui)⟩

/-- A returning `preUpdateUI` makes no `Settings` call and emits no signal,
whatever rotation it stores. -/
theorem preUpdateUI_no_settings_call (ndebug : Bool) (w w1 : OptionsWidget) (page_id : PageId)
    (rotation : OrthogonalRotation) (events : List Event)
    (h : w.preUpdateUI ndebug page_id rotation = some (w1, events)) :
    w1.m_pageId = page_id ∧ w1.m_rotation = rotation ∧
    events.filter Event.isSettingsCall = [] ∧ events.filter Event.isSignal = [] := by
  obtain ⟨hw, hev, _⟩ := preUpdateUI_some ndebug w w1 page_id rotation events h
  subst hw
  subst hev
  exact ⟨rfl, rfl, rfl, rfl⟩

/-! ## The claims on `OptionsWidget` -/

/-- C2, as the claim states it, fails: `preUpdateUI` on a fresh widget with a
rotation of 90 degrees returns, leaves `m_rotation` different from its value
before the call, and makes no call of `Settings::applyRotation`. -/
theorem preUpdateUI_changes_rotation_without_settings_call :
    ∃ w1 events,
      Op.run false OrthogonalRotation.steps (OptionsWidget.new ⟨some ":/icons/big-up-arrow.png"⟩)
          (Op.preUpdateUI ⟨⟨7⟩, 0⟩ ⟨90⟩) = some (w1, events) ∧
      w1.m_rotation ≠ (OptionsWidget.new ⟨some ":/icons/big-up-arrow.png"⟩).m_rotation ∧
      Event.applyRotation w1.m_pageId.imageId w1.m_rotation ∉ events ∧
      ∀ e ∈ events, e.isSettingsCall = false :=
  ⟨⟨⟨⟨7⟩, 0⟩, ⟨90⟩, some ":/icons/big-right-arrow.png", 1⟩,
   [Event.setPixmap (some ":/icons/big-right-arrow.png")],
   by decide, by decide, by decide, by decide⟩

/-- C2, amended: for every widget and every operation among `postUpdateUI`,
`rotateLeft`, `rotateRight` and `resetRotation`, if the operation leaves
`m_rotation` different from its value before the call, then it calls
`Settings::applyRotation` with the image id of the current `m_pageId` and the
new `m_rotation`; that is its only `Settings` call, and `m_pageId` is the one
before the call. -/
theorem rotation_change_pushed_to_settings (ndebug : Bool) (steps : RotationSteps)
    (w w1 : OptionsWidget) (op : Op) (events : List Event)
    (hop : op.viaSetRotation = true)
    (hrun : op.run ndebug steps w = some (w1, events))
    (hchanged : w1.m_rotation ≠ w.m_rotation) :
    Event.applyRotation w1.m_pageId.imageId w1.m_rotation ∈ events ∧
    events.filter Event.isSettingsCall
      = [Event.applyRotation w1.m_pageId.imageId w1.m_rotation] ∧
    w1.m_pageId = w.m_pageId := by
  have key : ∀ (v v1 : OptionsWidget) (rotation : OrthogonalRotation),
      v.setRotation ndebug rotation = some (v1, events) → v1.m_rotation ≠ v.m_rotation →
      Event.applyRotation v1.m_pageId.imageId v1.m_rotation ∈ events ∧
      events.filter Event.isSettingsCall
        = [Event.applyRotation v1.m_pageId.imageId v1.m_rotation] ∧ v1.m_pageId = v.m_pageId := by
    intro v v1 rotation hs hne
    have hrot := (setRotation_frame ndebug v v1 rotation events hs).1
    have hne2 : rotation ≠ v.m_rotation := by rw [← hrot]; exact hne
    obtain ⟨hv, hev, _⟩ := setRotation_some_of_ne ndebug v v1 rotation events hne2 hs
    subst hv
    subst hev
    exact ⟨by simp, rfl, rfl⟩
  cases op with
  | preUpdateUI page_id rotation => simp [Op.viaSetRotation] at hop
  | appliedTo pages => simp [Op.viaSetRotation] at hop
  | appliedToAllPages pages => simp [Op.viaSetRotation] at hop
  | postUpdateUI rotation =>
    obtain ⟨w2, hs, hw⟩ := postUpdateUI_some ndebug w w1 rotation events hrun
    subst hw
    exact key w.removeUiConnections w2 rotation hs hchanged
  | rotateLeft => exact key w w1 _ hrun hchanged
  | rotateRight => exact key w w1 _ hrun hchanged
  | resetRotation => exact key w w1 _ hrun hchanged

/-- Witness of the amended C2: `rotateRight` on a widget showing page 5 at 270
degrees. -/
theorem rotation_change_pushed_to_settings_witness :
    Op.rotateRight.viaSetRotation = true ∧
    Op.rotateRight.run false OrthogonalRotation.steps
        ⟨⟨⟨5⟩, 0⟩, ⟨270⟩, some ":/icons/big-left-arrow.png", 1⟩
      = some (⟨⟨⟨5⟩, 0⟩, ⟨0⟩, some ":/icons/big-up-arrow.png", 1⟩,
              [Event.setPixmap (some ":/icons/big-up-arrow.png"),
               Event.applyRotation ⟨5⟩ ⟨0⟩, Event.rotated ⟨0⟩,
               Event.invalidateThumbnail ⟨⟨5⟩, 0⟩]) ∧
    [Event.setPixmap (some ":/icons/big-up-arrow.png"),
     Event.applyRotation ⟨5⟩ ⟨0⟩, Event.rotated ⟨0⟩,
     Event.invalidateThumbnail ⟨⟨5⟩, 0⟩].filter Event.isSettingsCall
      = [Event.applyRotation ⟨5⟩ ⟨0⟩] :=
  ⟨by decide, by decide,
   (rotation_change_pushed_to_settings false OrthogonalRotation.steps
      ⟨⟨⟨5⟩, 0⟩, ⟨270⟩, some ":/icons/big-left-arrow.png", 1⟩
      ⟨⟨⟨5⟩, 0⟩, ⟨0⟩, some ":/icons/big-up-arrow.png", 1⟩ Op.rotateRight
      [Event.setPixmap (some ":/icons/big-up-arrow.png"),
       Event.applyRotation ⟨5⟩ ⟨0⟩, Event.rotated ⟨0⟩,
       Event.invalidateThumbnail ⟨⟨5⟩, 0⟩]
      (by decide) (by decide) (by decide)).2.1⟩

/-- C3: on the degrees 0, 90, 180 and 270 the switch of `setRotationPixmap` is
injective, its four paths are pairwise distinct, its image is exactly the
four arrow icons up, right, down and left, and the degrees can be recovered
from the path shown. -/
theorem pixmapPath_bijective (d1 d2 : Int) (h1 : d1 ∈ [(0 : Int), 90, 180, 270])
    (h2 : d2 ∈ [(0 : Int), 90, 180, 270]) :
    (OptionsWidget.pixmapPath d1 = OptionsWidget.pixmapPath d2 ↔ d1 = d2) ∧
    ([(0 : Int), 90, 180, 270].map OptionsWidget.pixmapPath
      = [some ":/icons/big-up-arrow.png", some ":/icons/big-right-arrow.png",
         some ":/icons/big-down-arrow.png", some ":/icons/big-left-arrow.png"]) ∧
    ([(0 : Int), 90, 180, 270].map OptionsWidget.pixmapPath).Nodup ∧
    (∀ path : String,
      (∃ d ∈ [(0 : Int), 90, 180, 270], OptionsWidget.pixmapPath d = some path) ↔
        path ∈ [":/icons/big-up-arrow.png", ":/icons/big-right-arrow.png",
                ":/icons/big-down-arrow.png", ":/icons/big-left-arrow.png"]) ∧
    ∃ recover : Option String → Int,
      ∀ d ∈ [(0 : Int), 90, 180, 270], recover (OptionsWidget.pixmapPath d) = d := by
  have hinj : ∀ a ∈ [(0 : Int), 90, 180, 270], ∀ b ∈ [(0 : Int), 90, 180, 270],
      OptionsWidget.pixmapPath a = OptionsWidget.pixmapPath b → a = b := by decide
  refine ⟨⟨hinj d1 h1 d2 h2, fun h => by rw [h]⟩, by decide, by decide, ?_, ?_⟩
  · intro path
    constructor
    · rintro ⟨d, hd, hp⟩
      simp only [List.mem_cons, List.mem_singleton, List.not_mem_nil, or_false] at hd
      rcases hd with hd | hd | hd | hd <;> subst hd <;>
        simp only [OptionsWidget.pixmapPath] at hp <;> simp at hp <;> simp [← hp]
    · intro hp
      simp only [List.mem_cons, List.mem_singleton, List.not_mem_nil, or_false] at hp
      rcases hp with hp | hp | hp | hp <;> subst hp
      · exact ⟨0, by decide, by decide⟩
      · exact ⟨90, by decide, by decide⟩
      · exact ⟨180, by decide, by decide⟩
      · exact ⟨270, by decide, by decide⟩
  · refine ⟨fun shown =>
      if shown = some ":/icons/big-up-arrow.png" then 0
      else if shown = some ":/icons/big-right-arrow.png" then 90
      else if shown = some ":/icons/big-down-arrow.png" then 180
      else 270, by decide⟩

/-- Witness of C3: the paths for 90 and 270 degrees. -/
theorem pixmapPath_bijective_witness :
    (90 : Int) ∈ [(0 : Int), 90, 180, 270] ∧ (270 : Int) ∈ [(0 : Int), 90, 180, 270] ∧
    (OptionsWidget.pixmapPath 90 = OptionsWidget.pixmapPath 270 ↔ (90 : Int) = 270) :=
  ⟨by decide, by decide, (pixmapPath_bijective 90 270 (by decide) (by decide)).1⟩

/-- C4: provided every rotation passed to `preUpdateUI` and `postUpdateUI` is
one of 0, 90, 180, 270 degrees and `nextClockwiseDirection` and
`prevClockwiseDirection` keep a rotation within that set, every sequence of
operations on a constructed widget runs to the end without the assertion of the
`default:` branch firing (in a debug and in a release build alike), no call
of `setPixmap` gets the null path, every path shown is one of the four
arrows, and the rotation reached is again one of the four. -/
theorem default_branch_unreachable (ndebug : Bool) (steps : RotationSteps)
    (ui : Ui_OptionsWidget) (ops : List Op)
    (hsteps : steps.KeepsQuantized) (hargs : ∀ op ∈ ops, op.QuantizedArgs) :
    ∃ w events, runOps ndebug steps ops (OptionsWidget.new ui) = some (w, events) ∧
      w.m_rotation.Quantized ∧
      Event.setPixmap none ∉ events ∧
      ∀ path, Event.setPixmap path ∈ events →
        path ∈ [some ":/icons/big-up-arrow.png", some ":/icons/big-right-arrow.png",
                some ":/icons/big-down-arrow.png", some ":/icons/big-left-arrow.png"] := by
  obtain ⟨w, events, hrun, hq, hnull⟩ :=
    runOps_of_quantized ndebug steps hsteps ops (OptionsWidget.new ui) (Or.inl rfl) hargs
  refine ⟨w, events, hrun, hq, hnull, ?_⟩
  intro path hmem
  exact runOps_setPixmap_path ndebug steps ops (OptionsWidget.new ui) w events hrun path hmem hnull

/-- Witness of C4: the modular steps keep rotations quantized, and a run in a
debug build with quantized arguments. -/
theorem default_branch_unreachable_witness :
    OrthogonalRotation.steps.KeepsQuantized ∧
    (∀ op ∈ [Op.rotateLeft, Op.postUpdateUI ⟨180⟩, Op.resetRotation], op.QuantizedArgs) ∧
    ∃ w events,
      runOps false OrthogonalRotation.steps
        [Op.rotateLeft, Op.postUpdateUI ⟨180⟩, Op.resetRotation] (OptionsWidget.new ⟨none⟩)
        = some (w, events) ∧
      w.m_rotation.Quantized ∧
      Event.setPixmap none ∉ events ∧
      ∀ path, Event.setPixmap path ∈ events →
        path ∈ [some ":/icons/big-up-arrow.png", some ":/icons/big-right-arrow.png",
                some ":/icons/big-down-arrow.png", some ":/icons/big-left-arrow.png"] :=
  ⟨steps_keepsQuantized,
   by simp [Op.QuantizedArgs, OrthogonalRotation.Quantized, OrthogonalRotation.toDegrees],
   default_branch_unreachable false OrthogonalRotation.steps ⟨none⟩
     [Op.rotateLeft, Op.postUpdateUI ⟨180⟩, Op.resetRotation] steps_keepsQuantized
     (by simp [Op.QuantizedArgs, OrthogonalRotation.Quantized, OrthogonalRotation.toDegrees])⟩

/-- C5: `appliedTo(pages)` on the empty set makes no `Settings` call and emits
no signal; on a set with exactly one page `p` it calls
`Settings::applyRotation(pages, m_rotation)` once and emits exactly
`invalidateThumbnail(p)`; on a set with more than one page it calls
`Settings::applyRotation(pages, m_rotation)` once and emits exactly one
`invalidateAllThumbnails`. In all three cases the widget is unchanged and
`rotated` is not emitted. -/
theorem appliedTo_effects (w : OptionsWidget) (p : PageId) (pages : List PageId)
    (hmany : 1 < pages.length) :
    w.appliedTo [] = (w, []) ∧
    w.appliedTo [p]
      = (w, [Event.applyRotationToPages [p] w.m_rotation, Event.invalidateThumbnail p]) ∧
    w.appliedTo pages
      = (w, [Event.applyRotationToPages pages w.m_rotation, Event.invalidateAllThumbnails]) ∧
    (∀ (some_pages : List PageId) (r : OrthogonalRotation),
      (w.appliedTo some_pages).1 = w ∧ Event.rotated r ∉ (w.appliedTo some_pages).2) := by
  refine ⟨rfl, rfl, ?_, ?_⟩
  · have hne : pages.isEmpty = false := by
      cases pages with
      | nil => simp at hmany
      | cons a rest => rfl
    simp [OptionsWidget.appliedTo, hne, hmany]
  · intro some_pages r
    unfold OptionsWidget.appliedTo
    split
    · simp
    · refine ⟨rfl, ?_⟩
      simp only [List.mem_cons, not_or]
      refine ⟨by simp, ?_⟩
      split <;> simp

/-- Witness of C5: a set of two pages. -/
theorem appliedTo_effects_witness :
    1 < [PageId.mk ⟨1⟩ 0, PageId.mk ⟨2⟩ 0].length ∧
    (OptionsWidget.mk ⟨⟨1⟩, 0⟩ ⟨90⟩ (some ":/icons/big-right-arrow.png") 1).appliedTo
        [PageId.mk ⟨1⟩ 0, PageId.mk ⟨2⟩ 0]
      = (OptionsWidget.mk ⟨⟨1⟩, 0⟩ ⟨90⟩ (some ":/icons/big-right-arrow.png") 1,
         [Event.applyRotationToPages [PageId.mk ⟨1⟩ 0, PageId.mk ⟨2⟩ 0] ⟨90⟩,
          Event.invalidateAllThumbnails]) :=
  ⟨by decide,
   (appliedTo_effects (OptionsWidget.mk ⟨⟨1⟩, 0⟩ ⟨90⟩ (some ":/icons/big-right-arrow.png") 1)
      PageId.new [PageId.mk ⟨1⟩ 0, PageId.mk ⟨2⟩ 0] (by decide)).2.2.1⟩

/-- C6: for every page set, the empty one included, `appliedToAllPages(pages)`
calls `Settings::applyRotation(pages, m_rotation)` exactly once with the
current `m_rotation`, then emits exactly one `invalidateAllThumbnails`, emits
no `invalidateThumbnail` and no `rotated`, and leaves the widget unchanged. -/
theorem appliedToAllPages_effects (w : OptionsWidget) (pages : List PageId) :
    w.appliedToAllPages pages
      = (w, [Event.applyRotationToPages pages w.m_rotation, Event.invalidateAllThumbnails]) ∧
    w.appliedToAllPages []
      = (w, [Event.applyRotationToPages [] w.m_rotation, Event.invalidateAllThumbnails]) ∧
    (w.appliedToAllPages pages).2.filter Event.isSettingsCall
      = [Event.applyRotationToPages pages w.m_rotation] ∧
    (w.appliedToAllPages pages).2.filter Event.isSignal = [Event.invalidateAllThumbnails] ∧
    (w.appliedToAllPages pages).1.m_rotation = w.m_rotation ∧
    (w.appliedToAllPages pages).1.m_pageId = w.m_pageId :=
  ⟨rfl, rfl, rfl, rfl, rfl, rfl⟩

/-- C8: `setRotation` on the current rotation makes no `Settings` call, emits
no signal and leaves the widget unchanged; so do `resetRotation` on a widget
whose rotation is the default and `postUpdateUI` on the current rotation (which
only reconnects the buttons). On a rotation that differs (one of the four
quantized values, or any value in a release build) `setRotation` stores it,
shows its arrow, and then performs exactly `applyRotation(m_pageId.imageId(),
rotation)`, `rotated(rotation)` and `invalidateThumbnail(m_pageId)`, in that
order. -/
theorem setRotation_effects (ndebug : Bool) (w : OptionsWidget) (rotation : OrthogonalRotation)
    (hne : rotation ≠ w.m_rotation) (hq : rotation.Quantized ∨ ndebug = true) :
    w.setRotation ndebug w.m_rotation = some (w, []) ∧
    (w.m_rotation = OrthogonalRotation.new → w.resetRotation ndebug = some (w, [])) ∧
    w.postUpdateUI ndebug w.m_rotation = some ({ w with uiConnections := 1 }, []) ∧
    w.setRotation ndebug rotation
      = some ({ w with m_rotation := rotation,
                       rotationIndicator := OptionsWidget.pixmapPath rotation.toDegrees },
              [Event.setPixmap (OptionsWidget.pixmapPath rotation.toDegrees),
               Event.applyRotation w.m_pageId.imageId rotation,
               Event.rotated rotation,
               Event.invalidateThumbnail w.m_pageId]) := by
  refine ⟨setRotation_same ndebug w, ?_, ?_, setRotation_of_ne ndebug w rotation hne hq⟩
  · intro hdef
    unfold OptionsWidget.resetRotation
    rw [← hdef]
    exact setRotation_same ndebug w
  · have h := setRotation_same ndebug w.removeUiConnections
    unfold OptionsWidget.postUpdateUI
    have hrot : w.removeUiConnections.m_rotation = w.m_rotation := rfl
    rw [hrot] at h
    rw [h]
    rfl

/-- Witness of C8: a debug build, a widget at 0 degrees, a rotation of 180 degrees. -/
theorem setRotation_effects_witness :
    (OrthogonalRotation.mk 180) ≠ (OptionsWidget.mk ⟨⟨3⟩, 2⟩ ⟨0⟩ (some ":/icons/big-up-arrow.png") 1).m_rotation ∧
    (OrthogonalRotation.mk 180).Quantized ∧
    (OptionsWidget.mk ⟨⟨3⟩, 2⟩ ⟨0⟩ (some ":/icons/big-up-arrow.png") 1).setRotation false ⟨180⟩
      = some (⟨⟨⟨3⟩, 2⟩, ⟨180⟩, some ":/icons/big-down-arrow.png", 1⟩,
              [Event.setPixmap (some ":/icons/big-down-arrow.png"),
               Event.applyRotation ⟨3⟩ ⟨180⟩,
               Event.rotated ⟨180⟩,
               Event.invalidateThumbnail ⟨⟨3⟩, 2⟩]) :=
  ⟨by decide, by decide,
   (setRotation_effects false (OptionsWidget.mk ⟨⟨3⟩, 2⟩ ⟨0⟩ (some ":/icons/big-up-arrow.png") 1)
      ⟨180⟩ (by decide) (Or.inl (by decide))).2.2.2⟩

/-- C9: with `nextClockwiseDirection` adding and `prevClockwiseDirection`
subtracting 90 degrees modulo 360, on every widget whose rotation is one of 0,
90, 180, 270 degrees: `rotateLeft` then `rotateRight`, and `rotateRight` then
`rotateLeft`, restore `m_rotation` and leave the indicator showing its arrow,
which is the indicator before the two calls whenever that one agreed with
`m_rotation` (as it does in every state the operations reach); four
`rotateRight` calls, and four `rotateLeft` calls, do the same; and a single
`rotateLeft` or `rotateRight` changes `m_rotation` and performs exactly one
`applyRotation` with the image id of `m_pageId`, one `rotated` and one
`invalidateThumbnail(m_pageId)`, never taking the early return of
`setRotation`. -/
theorem rotate_round_trips (ndebug : Bool) (w : OptionsWidget) (hq : w.m_rotation.Quantized) :
    (∃ events, runOps ndebug OrthogonalRotation.steps [Op.rotateLeft, Op.rotateRight] w
        = some ({ w with rotationIndicator := OptionsWidget.pixmapPath w.m_rotation.toDegrees },
                events)) ∧
    (∃ events, runOps ndebug OrthogonalRotation.steps [Op.rotateRight, Op.rotateLeft] w
        = some ({ w with rotationIndicator := OptionsWidget.pixmapPath w.m_rotation.toDegrees },
                events)) ∧
    (∃ events, runOps ndebug OrthogonalRotation.steps
        [Op.rotateRight, Op.rotateRight, Op.rotateRight, Op.rotateRight] w
        = some ({ w with rotationIndicator := OptionsWidget.pixmapPath w.m_rotation.toDegrees },
                events)) ∧
    (∃ events, runOps ndebug OrthogonalRotation.steps
        [Op.rotateLeft, Op.rotateLeft, Op.rotateLeft, Op.rotateLeft] w
        = some ({ w with rotationIndicator := OptionsWidget.pixmapPath w.m_rotation.toDegrees },
                events)) ∧
    (w.IndicatorMatches →
      { w with rotationIndicator := OptionsWidget.pixmapPath w.m_rotation.toDegrees } = w) ∧
    (∃ w1 shown, w.rotateLeft ndebug OrthogonalRotation.steps
        = some (w1, [Event.setPixmap shown,
                     Event.applyRotation w.m_pageId.imageId w1.m_rotation,
                     Event.rotated w1.m_rotation,
                     Event.invalidateThumbnail w.m_pageId]) ∧
      w1.m_rotation ≠ w.m_rotation ∧ w1.m_pageId = w.m_pageId) ∧
    (∃ w1 shown, w.rotateRight ndebug OrthogonalRotation.steps
        = some (w1, [Event.setPixmap shown,
                     Event.applyRotation w.m_pageId.imageId w1.m_rotation,
                     Event.rotated w1.m_rotation,
                     Event.invalidateThumbnail w.m_pageId]) ∧
      w1.m_rotation ≠ w.m_rotation ∧ w1.m_pageId = w.m_pageId) := by
  obtain ⟨page_id, ⟨d⟩, shown, n⟩ := w
  simp only [OrthogonalRotation.Quantized, OrthogonalRotation.toDegrees] at hq
  rcases hq with hq | hq | hq | hq <;> subst hq <;>
    simp [runOps, Op.run, OptionsWidget.rotateLeft, OptionsWidget.rotateRight,
      OptionsWidget.setRotation, OptionsWidget.setRotationPixmap, OptionsWidget.pixmapPath,
      OptionsWidget.IndicatorMatches, OrthogonalRotation.steps, OrthogonalRotation.toDegrees] <;>
    exact ⟨fun h => h.symm, ⟨_, ⟨rfl, rfl⟩, by simp, rfl⟩, ⟨_, ⟨rfl, rfl⟩, by simp, rfl⟩⟩

/-- Witness of C9: a debug build and a widget showing page 8 at 270 degrees. -/
theorem rotate_round_trips_witness :
    (OptionsWidget.mk ⟨⟨8⟩, 0⟩ ⟨270⟩ (some ":/icons/big-left-arrow.png") 1).m_rotation.Quantized ∧
    (OptionsWidget.mk ⟨⟨8⟩, 0⟩ ⟨270⟩ (some ":/icons/big-left-arrow.png") 1).IndicatorMatches ∧
    ∃ events, runOps false OrthogonalRotation.steps [Op.rotateLeft, Op.rotateRight]
        (OptionsWidget.mk ⟨⟨8⟩, 0⟩ ⟨270⟩ (some ":/icons/big-left-arrow.png") 1)
      = some (OptionsWidget.mk ⟨⟨8⟩, 0⟩ ⟨270⟩ (some ":/icons/big-left-arrow.png") 1, events) :=
  ⟨by decide, by decide,
   (rotate_round_trips false
      (OptionsWidget.mk ⟨⟨8⟩, 0⟩ ⟨270⟩ (some ":/icons/big-left-arrow.png") 1)
      (by decide)).1⟩

end fix_orientation

/-! ## The claims on `NewOpenProjectPanel` -/

/-- The base name on some paths: an ordinary project file, a file with several
dots, a hidden file, a directory path, a bare name. -/
theorem baseName_examples :
    QFileInfo.baseName "/home/u/book.ScanTailor" = "book" ∧
    QFileInfo.baseName "a.b/c.tar.gz" = "c" ∧
    QFileInfo.baseName "/home/u/.hidden" = "" ∧
    QFileInfo.baseName "/home/u/" = "" ∧
    QFileInfo.baseName "notes" = "notes" := by decide

/-- The label made for a path does not depend on the labels already in the group. -/
theorem recentProjectLabel_addRecentProject (panel : NewOpenProjectPanel)
    (added file_path : String) :
    (panel.addRecentProject added).recentProjectLabel file_path
      = panel.recentProjectLabel file_path := rfl

/-- Enumerating a list of paths into `addRecentProject` appends one label per
path, in order. -/
theorem foldl_addRecentProject (paths : List String) :
    ∀ panel : NewOpenProjectPanel,
      paths.foldl NewOpenProjectPanel.addRecentProject panel
        = { panel with
            recentProjectsLabels :=
              panel.recentProjectsLabels ++ paths.map panel.recentProjectLabel } := by
  induction paths with
  | nil => intro panel; simp
  | cons file_path rest ih =>
    intro panel
    rw [List.foldl_cons, ih (panel.addRecentProject file_path)]
    have hlabel : (panel.addRecentProject file_path).recentProjectLabel
        = panel.recentProjectLabel := by
      funext q
      exact recentProjectLabel_addRecentProject panel file_path q
    rw [hlabel]
    simp [NewOpenProjectPanel.addRecentProject]

/-- The labels of a constructed panel: one per path held after `read()` and
`validate()`, in order. -/
theorem new_recentProjectsLabels (ui : Ui_NewOpenProjectPanel) (persisted : List String)
    (fileExists : String → Bool) :
    ∃ panel : NewOpenProjectPanel,
      (NewOpenProjectPanel.new ui persisted fileExists).1.recentProjectsLabels
        = (recentProjectPaths persisted fileExists).map panel.recentProjectLabel := by
  refine ⟨{ newProjectLabel := Utils.richTextForLink ui.newProjectLabelText none
            openProjectLabel := Utils.richTextForLink ui.openProjectLabelText none
            recentProjectsGroupVisible := ui.recentProjectsGroupVisible
            recentProjectsGroupFontPointSize := ui.recentProjectsGroupFontPointSize
            recentProjectsLabels := [] }, ?_⟩
  unfold NewOpenProjectPanel.new
  simp only
  split
  · rename_i hempty
    have hnil : recentProjectPaths persisted fileExists = [] := by
      simpa [RecentProjects.isEmpty, recentProjectPaths] using hempty
    rw [hnil]
    rfl
  · simp only [RecentProjects.enumerate, foldl_addRecentProject]
    rfl

/-- C7: after the constructor, the recent-projects group holds exactly one label
per path that `RecentProjects` holds after `read()` and `validate()`, in
enumeration order, the i-th label having the i-th path as its tool tip and as
its link target; and, the form showing the group, the group is hidden exactly
when that list is empty, in which case it holds no label. -/
theorem recent_project_labels (ui : Ui_NewOpenProjectPanel) (persisted : List String)
    (fileExists : String → Bool) (hui : ui.recentProjectsGroupVisible = true) :
    (NewOpenProjectPanel.new ui persisted fileExists).1.recentProjectsLabels.length
      = (recentProjectPaths persisted fileExists).length ∧
    (NewOpenProjectPanel.new ui persisted fileExists).1.recentProjectsLabels.map QLabel.toolTip
      = recentProjectPaths persisted fileExists ∧
    (NewOpenProjectPanel.new ui persisted fileExists).1.recentProjectsLabels.map
        (fun label => label.text.target)
      = (recentProjectPaths persisted fileExists).map some ∧
    (∀ i : Nat,
      ((NewOpenProjectPanel.new ui persisted fileExists).1.recentProjectsLabels[i]?).map
          QLabel.toolTip = (recentProjectPaths persisted fileExists)[i]? ∧
      ((NewOpenProjectPanel.new ui persisted fileExists).1.recentProjectsLabels[i]?).map
          (fun label => label.text.target)
        = ((recentProjectPaths persisted fileExists)[i]?).map some) ∧
    ((NewOpenProjectPanel.new ui persisted fileExists).1.recentProjectsGroupVisible = false ↔
      recentProjectPaths persisted fileExists = []) ∧
    (recentProjectPaths persisted fileExists = [] →
      (NewOpenProjectPanel.new ui persisted fileExists).1.recentProjectsLabels = []) := by
  obtain ⟨panel, hlabels⟩ := new_recentProjectsLabels ui persisted fileExists
  have htips : (NewOpenProjectPanel.new ui persisted fileExists).1.recentProjectsLabels.map
      QLabel.toolTip = recentProjectPaths persisted fileExists := by
    rw [hlabels, List.map_map]
    exact List.map_id _
  have htargets : (NewOpenProjectPanel.new ui persisted fileExists).1.recentProjectsLabels.map
      (fun label => label.text.target) = (recentProjectPaths persisted fileExists).map some := by
    rw [hlabels, List.map_map]
    rfl
  refine ⟨by rw [hlabels, List.length_map], htips, htargets, ?_, ?_, ?_⟩
  · intro i
    refine ⟨?_, ?_⟩
    · rw [← List.getElem?_map, htips]
    · rw [← List.getElem?_map, htargets, List.getElem?_map]
  · unfold NewOpenProjectPanel.new
    simp only
    split
    · rename_i hempty
      have hnil : recentProjectPaths persisted fileExists = [] := by
        simpa [RecentProjects.isEmpty, recentProjectPaths] using hempty
      simp [hnil]
    · rename_i hempty
      have hne : recentProjectPaths persisted fileExists ≠ [] := by
        simpa [RecentProjects.isEmpty, recentProjectPaths] using hempty
      simp [RecentProjects.enumerate, foldl_addRecentProject, hui, hne]
  · intro hnil
    rw [hlabels, hnil]
    rfl

/-- Witness of C7: three persisted paths, the second of which no longer exists. -/
theorem recent_project_labels_witness :
    (Ui_NewOpenProjectPanel.mk "New Project ..." "Open Project ..." true 9).recentProjectsGroupVisible
      = true ∧
    recentProjectPaths ["/a/x.ScanTailor", "/gone", "/b/.y"] (fun file_path => file_path != "/gone")
      = ["/a/x.ScanTailor", "/b/.y"] ∧
    (NewOpenProjectPanel.new ⟨"New Project ...", "Open Project ...", true, 9⟩
        ["/a/x.ScanTailor", "/gone", "/b/.y"]
        (fun file_path => file_path != "/gone")).1.recentProjectsLabels.map QLabel.toolTip
      = recentProjectPaths ["/a/x.ScanTailor", "/gone", "/b/.y"]
          (fun file_path => file_path != "/gone") :=
  ⟨rfl, by decide,
   (recent_project_labels ⟨"New Project ...", "Open Project ...", true, 9⟩
      ["/a/x.ScanTailor", "/gone", "/b/.y"] (fun file_path => file_path != "/gone") rfl).2.1⟩

/-- C10: `addRecentProject(file_path)` adds one label, whose link text is
`baseName(file_path)` when that is not empty and the single character `_` when
it is empty, hence never empty; a path whose file name begins with `.` and a
path ending in `/` both get `_`; the link target and the tool tip of the
label are the full path, unmodified, in both cases. -/
theorem addRecentProject_link_text (panel : NewOpenProjectPanel) (file_path : String) :
    (panel.addRecentProject file_path).recentProjectsLabels
      = panel.recentProjectsLabels ++ [panel.recentProjectLabel file_path] ∧
    (QFileInfo.baseName file_path ≠ "" →
      (panel.recentProjectLabel file_path).text.label = QFileInfo.baseName file_path) ∧
    (QFileInfo.baseName file_path = "" →
      (panel.recentProjectLabel file_path).text.label = "_") ∧
    (panel.recentProjectLabel file_path).text.label ≠ "" ∧
    ((QFileInfo.fileName file_path).data.head? = some '.' →
      (panel.recentProjectLabel file_path).text.label = "_") ∧
    (file_path.data.getLast? = some '/' →
      (panel.recentProjectLabel file_path).text.label = "_") ∧
    (panel.recentProjectLabel file_path).text.target = some file_path ∧
    (panel.recentProjectLabel file_path).toolTip = file_path := by
  have hfull : QFileInfo.baseName file_path ≠ "" →
      (panel.recentProjectLabel file_path).text.label = QFileInfo.baseName file_path := by
    intro hne
    have hfalse : (QFileInfo.baseName file_path).isEmpty = false := by
      cases hb : (QFileInfo.baseName file_path).isEmpty with
      | false => rfl
      | true => exact absurd ((String.isEmpty_iff _).mp hb) hne
    simp [NewOpenProjectPanel.recentProjectLabel, Utils.richTextForLink, hfalse]
  have hempty : QFileInfo.baseName file_path = "" →
      (panel.recentProjectLabel file_path).text.label = "_" := by
    intro he
    have htrue : (QFileInfo.baseName file_path).isEmpty = true := (String.isEmpty_iff _).mpr he
    simp only [NewOpenProjectPanel.recentProjectLabel, Utils.richTextForLink, htrue, if_true]
    rfl
  refine ⟨rfl, hfull, hempty, ?_, ?_, ?_, rfl, rfl⟩
  · by_cases he : QFileInfo.baseName file_path = ""
    · rw [hempty he]
      decide
    · rw [hfull he]
      exact he
  · intro hdot
    apply hempty
    unfold QFileInfo.baseName
    cases hdata : (QFileInfo.fileName file_path).data with
    | nil => rfl
    | cons c rest =>
      rw [hdata] at hdot
      simp only [List.head?_cons, Option.some.injEq] at hdot
      subst hdot
      rfl
  · intro hslash
    apply hempty
    have hname : QFileInfo.fileName file_path = "" := by
      unfold QFileInfo.fileName
      cases hrev : file_path.data.reverse with
      | nil => rfl
      | cons c rest =>
        have hhead : file_path.data.reverse.head? = some '/' := by
          rw [List.head?_reverse]
          exact hslash
        rw [hrev] at hhead
        simp only [List.head?_cons, Option.some.injEq] at hhead
        subst hhead
        rfl
    unfold QFileInfo.baseName
    rw [hname]
    rfl
